import Mathlib

/-!
Formal model of the rbtempo Rhythmbox plugin (`rbtempo.py`).

The plugin holds three numeric adjustments (tempo, pitch, speed), a lazily
created GStreamer "pitch" filter element inserted into the host pipeline,
and a toolbox widget inserted into the host toolbar.  We embed the plugin
state as an explicit record, the host-facing effects (element creation,
pipeline insertion and removal, warnings) as counters and flags, and each
method of `RBTempoPlugin` as a state-transition function.  Floating-point
values are modelled over the reals, adjustment values over the rationals.
-/

/-- Properties of the GStreamer "pitch" element written by the plugin
(`pitch_element.props.tempo / .pitch / .rate` in `property_changed`).
A freshly created element carries the element's documented default value
1.0 for each property. -/
structure Elem where
  tempo : ℝ
  pitch : ℝ
  rate : ℝ

/-- State of an `RBTempoPlugin` instance.  The first four fields are the
plugin's own attributes (`tempo_adj`, `pitch_adj`, `speed_adj` hold the
current adjustment values; `pitch_element` is the optional filter handle).
`toolbox` records whether the `self.toolbox` handle is set and
`toolboxInserted` whether that widget currently sits in the host toolbar
(`self.toolbox.get_parent()`).  The remaining fields are ghost
instrumentation counting observable host interactions: `warnings` counts
`GLib.warning` calls, `createAttempts` counts `Gst.ElementFactory.make`
calls, `pipelineInsertions` and `pipelineRemovals` count the host player's
`add_filter` / `remove_filter` calls, and `handlerRuns` counts invocations
of the `property_changed` handler. -/
structure PState where
  tempo_adj : ℚ
  pitch_adj : ℚ
  speed_adj : ℚ
  pitch_element : Option Elem
  toolbox : Bool
  toolboxInserted : Bool
  warnings : ℕ
  createAttempts : ℕ
  pipelineInsertions : ℕ
  pipelineRemovals : ℕ
  handlerRuns : ℕ

/-- Model of `RBTempoPlugin.add_filter` (rbtempo.py lines 177-184): if the handle is
`None`, attempt `Gst.ElementFactory.make("pitch", None)`; on success insert
the element into the host pipeline, otherwise log a warning.  The
environment flag `canCreate` models whether the host GStreamer installation
can supply the "pitch" element. -/
def add_filter (canCreate : Bool) (s : PState) : PState :=
  match s.pitch_element with
  | some _ => s
  | none =>
    if canCreate then
      { s with pitch_element := some ⟨1, 1, 1⟩,
               createAttempts := s.createAttempts + 1,
               pipelineInsertions := s.pipelineInsertions + 1 }
    else
      { s with createAttempts := s.createAttempts + 1,
               warnings := s.warnings + 1 }

/-- The property-write half of `RBTempoPlugin.property_changed` (lines
61-64): if the filter element is present, write its `tempo`, `pitch` and
`rate` properties from the current adjustment values; otherwise do
nothing. -/
noncomputable def apply_props (s : PState) : PState :=
  match s.pitch_element with
  | none => s
  | some _ =>
    { s with
        pitch_element := some
          ⟨(s.tempo_adj : ℝ) * 0.01 + 1.0,
            (2.0 : ℝ) ^ ((s.pitch_adj : ℝ) / 12.0),
            (s.speed_adj : ℝ) * 0.01 + 1.0⟩ }

/-- Model of `RBTempoPlugin.property_changed` (lines 53-64): first `add_filter` is
invoked to ensure the filter is in the pipeline, then the three filter
properties are written when the element is present.  The ghost counter
`handlerRuns` records the invocation. -/
noncomputable def property_changed (canCreate : Bool) (s : PState) : PState :=
  apply_props (add_filter canCreate { s with handlerRuns := s.handlerRuns + 1 })

/-- Selector for the three adjustments created in `create_toolbox`. -/
inductive AdjKind where
  | tempo
  | pitch
  | speed

/-- Store a new value into the selected adjustment attribute. -/
def setAdjValue (k : AdjKind) (x : ℚ) (s : PState) : PState :=
  match k with
  | .tempo => { s with tempo_adj := x }
  | .pitch => { s with pitch_adj := x }
  | .speed => { s with speed_adj := x }

/-- Model of `Gtk.Adjustment.set_value` on one of the plugin's three
adjustments: store the value and emit the value-changed signal, which
`create_adj` (lines 66-71) has connected to `property_changed`. -/
noncomputable def set_value (canCreate : Bool) (k : AdjKind) (x : ℚ) (s : PState) : PState :=
  property_changed canCreate (setAdjValue k x s)

/-- Model of `RBTempoPlugin.reset` (lines 88-98): set all three adjustments back to
0, in the order tempo, pitch, speed; each `set_value` triggers the
value-changed handler. -/
noncomputable def reset (canCreate : Bool) (s : PState) : PState :=
  set_value canCreate AdjKind.speed 0
    (set_value canCreate AdjKind.pitch 0
      (set_value canCreate AdjKind.tempo 0 s))

/-- Model of `RBTempoPlugin.remove_filter` (lines 186-190): if the handle is
present, remove the element from the host pipeline and clear the handle;
otherwise do nothing. -/
def remove_filter (s : PState) : PState :=
  match s.pitch_element with
  | none => s
  | some _ =>
    { s with pitch_element := none,
             pipelineRemovals := s.pipelineRemovals + 1 }

/-- Host environment seen by the lifecycle hooks: whether the GStreamer
"pitch" element can be created, whether `get_toolbar` finds the main
toolbar, and whether the calls inside the guarded UI blocks raise
(`lookupRaises` for `get_toolbar` itself, `insertRaises` for
`toolbar.insert`, `removeRaises` for `toolbar.remove`). -/
structure Env where
  canCreate : Bool
  toolbarFound : Bool
  lookupRaises : Bool
  insertRaises : Bool
  removeRaises : Bool

/-- Body of the `try` block of `do_activate` (lines 199-205): locate the
toolbar; if found, build the toolbox (`create_toolbox` creates the three
adjustments at value 0 and assigns `self.toolbox`) and insert it at
position 2; if not found, log a warning.  Returns the state reached
together with `true` when an exception escaped the block (leaving the
partial state visible, since Python mutates `self` in place). -/
def activate_ui (env : Env) (s : PState) : PState × Bool :=
  if env.lookupRaises then (s, true)
  else if env.toolbarFound then
    let s2 := { s with toolbox := true,
                       tempo_adj := 0, pitch_adj := 0, speed_adj := 0 }
    if env.insertRaises then (s2, true)
    else ({ s2 with toolboxInserted := true }, false)
  else ({ s with warnings := s.warnings + 1 }, false)

/-- Model of `RBTempoPlugin.do_activate` (lines 192-207): clear both handles,
attach the filter, then run the guarded UI construction; any exception
from the `try` block is caught and logged as a warning, never
propagated (the function is total). -/
def do_activate (env : Env) (s : PState) : PState :=
  let s1 := add_filter env.canCreate
    { s with pitch_element := none, toolbox := false, toolboxInserted := false }
  let r := activate_ui env s1
  if r.2 then { r.1 with warnings := r.1.warnings + 1 } else r.1

/-- Body of the `try` block of `do_deactivate` (lines 213-220): locate the
toolbar again; if found and the toolbox still has a parent, remove it from
the toolbar; if the toolbar is missing, log a warning.  Returns the state
together with `true` when an exception escaped the block. -/
def deactivate_ui (env : Env) (s : PState) : PState × Bool :=
  if env.lookupRaises then (s, true)
  else if env.toolbarFound then
    if s.toolboxInserted then
      if env.removeRaises then (s, true)
      else ({ s with toolboxInserted := false }, false)
    else (s, false)
  else ({ s with warnings := s.warnings + 1 }, false)

/-- Model of `RBTempoPlugin.do_deactivate` (lines 209-223): detach the filter, run
the guarded UI teardown when a toolbox handle exists (catching any
exception as a warning), and finally clear both handles unconditionally. -/
def do_deactivate (env : Env) (s : PState) : PState :=
  let s1 := remove_filter s
  let s2 :=
    if s1.toolbox then
      let r := deactivate_ui env s1
      if r.2 then { r.1 with warnings := r.1.warnings + 1 } else r.1
    else s1
  { s2 with toolbox := false, pitch_element := none }

/-- A GTK widget tree as seen by `find_widget_by_name`: a node is either
not a `Gtk.Widget` at all, or a widget carrying whether it implements
`Gtk.Buildable`, its buildable name, whether it is a `Gtk.Container`, and
its child list (exposed by `get_children`, only reachable through
containers). -/
inductive WTree where
  | notWidget : WTree
  | widget (isBuildable : Bool) (nm : String) (isContainer : Bool)
      (children : List WTree) : WTree

mutual

/-- Model of `find_widget_by_name` (rbtempo.py lines 20-32): return `None` when the
root is not a widget; return the root itself when it is buildable and
bears the name; otherwise, when the root is a container, recurse over its
children in order and return the first non-`None` answer. -/
def find_widget_by_name (root : WTree) (name : String) : Option WTree :=
  match root with
  | .notWidget => none
  | .widget b nm c cs =>
    if b && (nm == name) then some (.widget b nm c cs)
    else if c then findInChildren cs name
    else none

/-- The `for child in root.get_children()` loop of `find_widget_by_name`:
first non-`None` recursive answer, in child order. -/
def findInChildren (ts : List WTree) (name : String) : Option WTree :=
  match ts with
  | [] => none
  | t :: ts' =>
    match find_widget_by_name t name with
    | some ans => some ans
    | none => findInChildren ts' name

end

/-- Modelled from the spec: a node itself "bears the name" when it is a
buildable widget whose buildable name equals the target. -/
def specMatches (t : WTree) (name : String) : Bool :=
  match t with
  | .notWidget => false
  | .widget b nm _ _ => b && (nm == name)

mutual

/-- Modelled from the spec: the depth-first pre-order visit sequence of a
widget tree — a node is listed before its children, children in order, and
only containers expose children.  A non-widget node is not visited. -/
def specPreorder (t : WTree) : List WTree :=
  match t with
  | .notWidget => []
  | .widget b nm c cs =>
    WTree.widget b nm c cs :: (if c then specPreorderList cs else [])

/-- Pre-order visit sequence of a forest of sibling subtrees. -/
def specPreorderList (ts : List WTree) : List WTree :=
  match ts with
  | [] => []
  | t :: ts' => specPreorder t ++ specPreorderList ts'

end

/-- Concrete plugin state for the witnesses: neutral adjustments and an
attached filter element with neutral properties. -/
noncomputable def sampleState : PState :=
  { tempo_adj := 0, pitch_adj := 0, speed_adj := 0,
    pitch_element := some ⟨1, 1, 1⟩,
    toolbox := true, toolboxInserted := true,
    warnings := 0, createAttempts := 0,
    pipelineInsertions := 0, pipelineRemovals := 0, handlerRuns := 0 }

/-- Concrete plugin state for the witnesses: no filter element, no toolbox. -/
def emptyState : PState :=
  { tempo_adj := 0, pitch_adj := 0, speed_adj := 0,
    pitch_element := none,
    toolbox := false, toolboxInserted := false,
    warnings := 0, createAttempts := 0,
    pipelineInsertions := 0, pipelineRemovals := 0, handlerRuns := 0 }

/-- Concrete host environment for the witnesses: element creatable, toolbar
present, nothing raises. -/
def sampleEnv : Env :=
  { canCreate := true, toolbarFound := true,
    lookupRaises := false, insertRaises := false, removeRaises := false }

theorem add_filter_of_some (c : Bool) (s : PState) (e : Elem)
    (h : s.pitch_element = some e) : add_filter c s = s := by
  unfold add_filter
  rw [h]

theorem add_filter_none_create (s : PState) (h : s.pitch_element = none) :
    add_filter true s =
      { s with pitch_element := some ⟨1, 1, 1⟩,
               createAttempts := s.createAttempts + 1,
               pipelineInsertions := s.pipelineInsertions + 1 } := by
  unfold add_filter
  rw [h]
  rfl

theorem add_filter_none_fail (s : PState) (h : s.pitch_element = none) :
    add_filter false s =
      { s with createAttempts := s.createAttempts + 1,
               warnings := s.warnings + 1 } := by
  unfold add_filter
  rw [h]
  rfl

theorem apply_props_of_some (s : PState) (e : Elem)
    (h : s.pitch_element = some e) :
    apply_props s =
      { s with
          pitch_element := some
            ⟨(s.tempo_adj : ℝ) * 0.01 + 1.0,
              (2.0 : ℝ) ^ ((s.pitch_adj : ℝ) / 12.0),
              (s.speed_adj : ℝ) * 0.01 + 1.0⟩ } := by
  unfold apply_props
  rw [h]

theorem apply_props_of_none (s : PState) (h : s.pitch_element = none) :
    apply_props s = s := by
  unfold apply_props
  rw [h]

/-- Claim C6: when the filter element is already present, `add_filter` is a
no-op — it creates no new element, performs no second pipeline insertion,
and leaves the handle (and the whole plugin state) unchanged. -/
theorem c6_add_filter_idempotent (c : Bool) (s : PState) (e : Elem)
    (h : s.pitch_element = some e) : add_filter c s = s :=
  add_filter_of_some c s e h

theorem c6_witness : add_filter true sampleState = sampleState :=
  c6_add_filter_idempotent true sampleState ⟨1, 1, 1⟩ rfl

/-- Claim C7: `remove_filter` with no attached element is a no-op (and
raises nothing, being a total function); with an attached element it
removes it from the host pipeline and clears the handle, changing nothing
else. -/
theorem c7_remove_filter_cases (s : PState) :
    (s.pitch_element = none → remove_filter s = s) ∧
    (∀ e, s.pitch_element = some e →
      remove_filter s =
        { s with pitch_element := none,
                 pipelineRemovals := s.pipelineRemovals + 1 }) := by
  constructor
  · intro h
    unfold remove_filter
    rw [h]
  · intro e h
    unfold remove_filter
    rw [h]

theorem c7_witness :
    remove_filter emptyState = emptyState ∧
    remove_filter sampleState =
      { sampleState with
          pitch_element := none,
          pipelineRemovals := sampleState.pipelineRemovals + 1 } :=
  ⟨(c7_remove_filter_cases emptyState).1 rfl,
   (c7_remove_filter_cases sampleState).2 ⟨1, 1, 1⟩ rfl⟩

/-- Claim C9: after `do_deactivate` both handles are cleared — the toolbox
handle and the filter handle — in every state and environment, including
those where locating the toolbar or removing the toolbox raises, because
the clearing happens unconditionally after the guarded teardown. -/
theorem c9_deactivate_clears_handles (env : Env) (s : PState) :
    (do_deactivate env s).toolbox = false ∧
    (do_deactivate env s).pitch_element = none := by
  constructor <;> rfl

theorem property_changed_of_some (c : Bool) (s : PState) (e : Elem)
    (h : s.pitch_element = some e) :
    property_changed c s =
      { s with
          handlerRuns := s.handlerRuns + 1,
          pitch_element := some
            ⟨(s.tempo_adj : ℝ) * 0.01 + 1.0,
              (2.0 : ℝ) ^ ((s.pitch_adj : ℝ) / 12.0),
              (s.speed_adj : ℝ) * 0.01 + 1.0⟩ } := by
  simp [property_changed, add_filter, apply_props, h]

theorem property_changed_none_fail (s : PState) (h : s.pitch_element = none) :
    property_changed false s =
      { s with
          handlerRuns := s.handlerRuns + 1,
          createAttempts := s.createAttempts + 1,
          warnings := s.warnings + 1 } := by
  simp [property_changed, add_filter, apply_props, h]

theorem property_changed_none_create (s : PState) (h : s.pitch_element = none) :
    property_changed true s =
      { s with
          handlerRuns := s.handlerRuns + 1,
          createAttempts := s.createAttempts + 1,
          pipelineInsertions := s.pipelineInsertions + 1,
          pitch_element := some
            ⟨(s.tempo_adj : ℝ) * 0.01 + 1.0,
              (2.0 : ℝ) ^ ((s.pitch_adj : ℝ) / 12.0),
              (s.speed_adj : ℝ) * 0.01 + 1.0⟩ } := by
  simp [property_changed, add_filter, apply_props, h]

/-- Claim C1: for tempo and speed adjustment values in [-50, 200] and a
pitch adjustment value in [-12, 12], running the property-change handler
with a present filter element leaves the filter's tempo property equal to
v * 0.01 + 1.0, its pitch property equal to 2 ^ (p / 12), and its rate
property equal to the speed value * 0.01 + 1.0; consequently tempo and
rate lie in [0.5, 3.0] and pitch lies in [0.5, 2.0]. -/
theorem c1_property_changed_formulas (c : Bool) (s : PState) (e : Elem)
    (hpres : s.pitch_element = some e)
    (ht₁ : -50 ≤ s.tempo_adj) (ht₂ : s.tempo_adj ≤ 200)
    (hp₁ : -12 ≤ s.pitch_adj) (hp₂ : s.pitch_adj ≤ 12)
    (hv₁ : -50 ≤ s.speed_adj) (hv₂ : s.speed_adj ≤ 200) :
    (property_changed c s).pitch_element =
      some ⟨(s.tempo_adj : ℝ) * 0.01 + 1.0,
            (2.0 : ℝ) ^ ((s.pitch_adj : ℝ) / 12.0),
            (s.speed_adj : ℝ) * 0.01 + 1.0⟩ ∧
    (0.5 ≤ (s.tempo_adj : ℝ) * 0.01 + 1.0 ∧ (s.tempo_adj : ℝ) * 0.01 + 1.0 ≤ 3.0) ∧
    (0.5 ≤ (2.0 : ℝ) ^ ((s.pitch_adj : ℝ) / 12.0) ∧
      (2.0 : ℝ) ^ ((s.pitch_adj : ℝ) / 12.0) ≤ 2.0) ∧
    (0.5 ≤ (s.speed_adj : ℝ) * 0.01 + 1.0 ∧ (s.speed_adj : ℝ) * 0.01 + 1.0 ≤ 3.0) := by
  have ht₁' : (-50 : ℝ) ≤ (s.tempo_adj : ℝ) := by exact_mod_cast ht₁
  have ht₂' : (s.tempo_adj : ℝ) ≤ 200 := by exact_mod_cast ht₂
  have hp₁' : (-12 : ℝ) ≤ (s.pitch_adj : ℝ) := by exact_mod_cast hp₁
  have hp₂' : (s.pitch_adj : ℝ) ≤ 12 := by exact_mod_cast hp₂
  have hv₁' : (-50 : ℝ) ≤ (s.speed_adj : ℝ) := by exact_mod_cast hv₁
  have hv₂' : (s.speed_adj : ℝ) ≤ 200 := by exact_mod_cast hv₂
  have h2 : (2.0 : ℝ) = 2 := by norm_num
  have h12 : (12.0 : ℝ) = 12 := by norm_num
  have hxlo : (-1 : ℝ) ≤ (s.pitch_adj : ℝ) / 12 := by linarith
  have hxhi : (s.pitch_adj : ℝ) / 12 ≤ 1 := by linarith
  have hplo : (0.5 : ℝ) ≤ (2.0 : ℝ) ^ ((s.pitch_adj : ℝ) / 12.0) := by
    rw [h2, h12]
    have hmono := Real.rpow_le_rpow_of_exponent_le
      (by norm_num : (1 : ℝ) ≤ 2) hxlo
    rw [show ((-1 : ℝ)) = -(1 : ℝ) by norm_num,
        Real.rpow_neg (by norm_num : (0 : ℝ) ≤ 2), Real.rpow_one] at hmono
    norm_num at hmono ⊢
    linarith
  have hphi : (2.0 : ℝ) ^ ((s.pitch_adj : ℝ) / 12.0) ≤ 2.0 := by
    rw [h2, h12]
    have hmono := Real.rpow_le_rpow_of_exponent_le
      (by norm_num : (1 : ℝ) ≤ 2) hxhi
    rwa [Real.rpow_one] at hmono
  refine ⟨?_, ⟨by norm_num; linarith, by norm_num; linarith⟩,
    ⟨hplo, hphi⟩, ⟨by norm_num; linarith, by norm_num; linarith⟩⟩
  rw [property_changed_of_some c s e hpres]

theorem c1_witness :
    (property_changed true sampleState).pitch_element =
      some ⟨(sampleState.tempo_adj : ℝ) * 0.01 + 1.0,
            (2.0 : ℝ) ^ ((sampleState.pitch_adj : ℝ) / 12.0),
            (sampleState.speed_adj : ℝ) * 0.01 + 1.0⟩ ∧
    (0.5 ≤ (sampleState.tempo_adj : ℝ) * 0.01 + 1.0 ∧
      (sampleState.tempo_adj : ℝ) * 0.01 + 1.0 ≤ 3.0) ∧
    (0.5 ≤ (2.0 : ℝ) ^ ((sampleState.pitch_adj : ℝ) / 12.0) ∧
      (2.0 : ℝ) ^ ((sampleState.pitch_adj : ℝ) / 12.0) ≤ 2.0) ∧
    (0.5 ≤ (sampleState.speed_adj : ℝ) * 0.01 + 1.0 ∧
      (sampleState.speed_adj : ℝ) * 0.01 + 1.0 ≤ 3.0) :=
  c1_property_changed_formulas true sampleState ⟨1, 1, 1⟩ rfl
    (by norm_num [sampleState]) (by norm_num [sampleState])
    (by norm_num [sampleState]) (by norm_num [sampleState])
    (by norm_num [sampleState]) (by norm_num [sampleState])

/-- Claim C2: from every starting state, `reset` leaves all three
adjustment values equal to 0 and, whenever the filter element is present
afterwards, its derived tempo, pitch and rate properties all equal 1.0. -/
theorem c2_reset_neutral (c : Bool) (s : PState) :
    (reset c s).tempo_adj = 0 ∧ (reset c s).pitch_adj = 0 ∧
    (reset c s).speed_adj = 0 ∧
    ∀ e, (reset c s).pitch_element = some e →
      e.tempo = 1.0 ∧ e.pitch = 1.0 ∧ e.rate = 1.0 := by
  rcases hE : s.pitch_element with _ | e₀ <;> cases c <;>
    simp [reset, set_value, property_changed, setAdjValue, apply_props,
      add_filter, hE] <;>
    norm_num

theorem c2_witness :
    (reset true sampleState).tempo_adj = 0 ∧
    (reset true sampleState).pitch_adj = 0 ∧
    (reset true sampleState).speed_adj = 0 ∧
    ∀ e, (reset true sampleState).pitch_element = some e →
      e.tempo = 1.0 ∧ e.pitch = 1.0 ∧ e.rate = 1.0 :=
  c2_reset_neutral true sampleState

/-- Claim C3 as stated is false: during `reset`, each handler run
recomputes all three filter properties from the adjustment values current
at that moment, so the run triggered by the first `set_value` (tempo) does
not apply the neutral pitch value when the pitch adjustment is still
nonzero.  Concretely, starting from a state with pitch adjustment 12 and
an attached filter, the first run leaves the filter's pitch property at
2 ^ (12 / 12) = 2, not 1.0. -/
theorem c3_counterexample :
    ¬ (∀ e, (set_value true AdjKind.tempo 0
        { sampleState with pitch_adj := 12 }).pitch_element = some e →
      e.pitch = 1.0) := by
  intro hcl
  have h := hcl
    ⟨(((0 : ℚ)) : ℝ) * 0.01 + 1.0,
      (2.0 : ℝ) ^ ((((12 : ℚ)) : ℝ) / 12.0),
      (((0 : ℚ)) : ℝ) * 0.01 + 1.0⟩
    (by simp [set_value, property_changed, setAdjValue, apply_props,
      add_filter, sampleState])
  rw [show ((((12 : ℚ)) : ℝ) / 12.0) = (1 : ℝ) by norm_num,
    Real.rpow_one] at h
  norm_num at h

/-- Claim C3 (amended): from every starting state, `reset` triggers the
value-changed handler (`property_changed`) exactly three times, once per
adjustment; each run recomputes all three filter properties from the
adjustment values current at that moment, so it is the final run that
leaves the filter's properties at the neutral values tempo 1.0, pitch 1.0,
rate 1.0 (whenever the element is present). -/
theorem c3_reset_three_runs (c : Bool) (s : PState) :
    (reset c s).handlerRuns = s.handlerRuns + 3 ∧
    ∀ e, (reset c s).pitch_element = some e →
      e.tempo = 1.0 ∧ e.pitch = 1.0 ∧ e.rate = 1.0 := by
  rcases hE : s.pitch_element with _ | e₀ <;> cases c <;>
    simp [reset, set_value, property_changed, setAdjValue, apply_props,
      add_filter, hE] <;>
    norm_num

theorem c3_witness :
    (reset true sampleState).handlerRuns = sampleState.handlerRuns + 3 ∧
    ∀ e, (reset true sampleState).pitch_element = some e →
      e.tempo = 1.0 ∧ e.pitch = 1.0 ∧ e.rate = 1.0 :=
  c3_reset_three_runs true sampleState

/-- Claim C4 as stated is false: after a creation failure the handle is
still `None`, so the `add_filter` call made by the next property-change
run attempts `Gst.ElementFactory.make` again — the creation-attempt
counter moves on a subsequent operation. -/
theorem c4_counterexample :
    (property_changed true (add_filter false emptyState)).createAttempts ≠
      (add_filter false emptyState).createAttempts := by
  simp [property_changed, apply_props, add_filter, emptyState]

/-- Claim C4 (amended): after a filter-element creation failure the
failing `add_filter` call itself performs exactly one creation attempt and
does not retry; its only observable effects are a host-level log warning
(and the attempt itself), and the handle stays empty.  However, each
subsequent property-change handler run defensively re-invokes
`add_filter`, which attempts to create the element again while the handle
is `None`. -/
theorem c4_no_retry_within_call (c : Bool) (s : PState)
    (h : s.pitch_element = none) :
    add_filter false s =
      { s with createAttempts := s.createAttempts + 1,
               warnings := s.warnings + 1 } ∧
    (property_changed c (add_filter false s)).createAttempts =
      s.createAttempts + 2 := by
  refine ⟨add_filter_none_fail s h, ?_⟩
  rw [add_filter_none_fail s h]
  have h2 : ({ s with createAttempts := s.createAttempts + 1,
                      warnings := s.warnings + 1 } : PState).pitch_element
      = none := h
  cases c
  · rw [property_changed_none_fail _ h2]
  · rw [property_changed_none_create _ h2]

theorem c4_witness :
    (add_filter false emptyState =
      { emptyState with
          createAttempts := emptyState.createAttempts + 1,
          warnings := emptyState.warnings + 1 } ∧
    (property_changed true (add_filter false emptyState)).createAttempts =
      emptyState.createAttempts + 2) :=
  c4_no_retry_within_call true emptyState rfl

/-- Claim C5: when the host cannot supply the "pitch" element,
`add_filter` raises no error (it is a total function), leaves the handle
`None`, and its only observable effect is one warning; a property-change
handler run in the same failing environment skips all three filter
property writes, changing the state only by the defensive `add_filter`
effects and the ghost run counter. -/
theorem c5_creation_failure_degrades (s : PState)
    (h : s.pitch_element = none) :
    add_filter false s =
      { s with createAttempts := s.createAttempts + 1,
               warnings := s.warnings + 1 } ∧
    (add_filter false s).pitch_element = none ∧
    property_changed false s =
      { s with handlerRuns := s.handlerRuns + 1,
               createAttempts := s.createAttempts + 1,
               warnings := s.warnings + 1 } ∧
    (property_changed false s).pitch_element = none := by
  refine ⟨add_filter_none_fail s h, ?_, property_changed_none_fail s h, ?_⟩
  · rw [add_filter_none_fail s h]
    exact h
  · rw [property_changed_none_fail s h]
    exact h

theorem c5_witness :
    (add_filter false emptyState =
      { emptyState with
          createAttempts := emptyState.createAttempts + 1,
          warnings := emptyState.warnings + 1 } ∧
    (add_filter false emptyState).pitch_element = none ∧
    property_changed false emptyState =
      { emptyState with
          handlerRuns := emptyState.handlerRuns + 1,
          createAttempts := emptyState.createAttempts + 1,
          warnings := emptyState.warnings + 1 } ∧
    (property_changed false emptyState).pitch_element = none) :=
  c5_creation_failure_degrades emptyState rfl

/-- Claim C8: `do_activate` is total (exceptions inside the guarded UI
block are caught at the activation boundary and converted into warnings,
never propagated).  When the toolbar cannot be located, it logs a warning
and builds no toolbox UI (the toolbox handle stays unset and nothing is
inserted), leaving the plugin active without UI; the same holds when the
toolbar lookup itself raises; and when the toolbox insertion raises, the
exception is likewise caught and only a warning results.  (The warning
count also includes the one emitted by `add_filter` when element creation
fails.) -/
theorem c8_activate_guarded (env : Env) (s : PState) :
    (env.toolbarFound = false → env.lookupRaises = false →
      (do_activate env s).toolbox = false ∧
      (do_activate env s).toolboxInserted = false ∧
      (do_activate env s).warnings =
        s.warnings + (if env.canCreate = true then 1 else 2)) ∧
    (env.lookupRaises = true →
      (do_activate env s).toolbox = false ∧
      (do_activate env s).toolboxInserted = false ∧
      (do_activate env s).warnings =
        s.warnings + (if env.canCreate = true then 1 else 2)) ∧
    (env.toolbarFound = true → env.lookupRaises = false →
      env.insertRaises = true →
      (do_activate env s).toolbox = true ∧
      (do_activate env s).toolboxInserted = false ∧
      (do_activate env s).warnings =
        s.warnings + (if env.canCreate = true then 1 else 2)) := by
  rcases env with ⟨cc, tf, lr, ir, rr⟩
  cases cc <;> cases tf <;> cases lr <;> cases ir <;>
    simp [do_activate, activate_ui, add_filter]

theorem c8_witness :
    (do_activate { sampleEnv with toolbarFound := false } emptyState).toolbox
      = false ∧
    (do_activate { sampleEnv with toolbarFound := false }
      emptyState).toolboxInserted = false ∧
    (do_activate { sampleEnv with toolbarFound := false } emptyState).warnings
      = emptyState.warnings +
        (if ({ sampleEnv with toolbarFound := false } : Env).canCreate = true
          then 1 else 2) :=
  (c8_activate_guarded { sampleEnv with toolbarFound := false }
    emptyState).1 rfl rfl

mutual

theorem find_spec_aux (root : WTree) (name : String) :
    find_widget_by_name root name =
      List.find? (fun t => specMatches t name) (specPreorder root) := by
  cases root with
  | notWidget =>
    simp [find_widget_by_name, specPreorder]
  | widget b nm c cs =>
    rw [find_widget_by_name, specPreorder]
    by_cases hm : (b && (nm == name)) = true
    · simp [hm, List.find?, specMatches]
    · rw [if_neg hm]
      cases c with
      | true =>
        rw [if_pos rfl, findInChildren_spec_aux cs name]
        simp [List.find?, specMatches, hm]
      | false =>
        simp [List.find?, specMatches, hm]

theorem findInChildren_spec_aux (ts : List WTree) (name : String) :
    findInChildren ts name =
      List.find? (fun t => specMatches t name) (specPreorderList ts) := by
  cases ts with
  | nil => simp [findInChildren, specPreorderList]
  | cons t ts' =>
    rw [findInChildren, specPreorderList, List.find?_append,
      find_spec_aux t name, findInChildren_spec_aux ts' name]
    cases List.find? (fun t => specMatches t name) (specPreorder t) with
    | none => simp
    | some w => simp

end

/-- Claim C10: for every widget tree and every name,
`find_widget_by_name` returns exactly the first widget matching that name
in depth-first pre-order traversal (a node is tested before its children,
and children are visited in order); in particular it returns `none` when
the root is not a widget (the visit sequence is empty) or when no visited
node bears the name. -/
theorem c10_find_first_preorder_match (root : WTree) (name : String) :
    find_widget_by_name root name =
      List.find? (fun t => specMatches t name) (specPreorder root) :=
  find_spec_aux root name
